import Mathlib

/-!
Shallow embedding of the testcontainers-node core: the container orchestrator
(src/generic-container.ts) and the engine-facing layer (src/docker-client.ts).
Engine calls are supplied by an explicit environment record of fallible
operations; each orchestration is embedded as a pure function returning the
ordered trace of steps it performed together with an Except result.
Repository modules that are not under src/ (repo-tag.ts, bound-ports.ts,
wait-strategy.ts, port-binder.ts, container-state.ts, test-container.ts) are
modelled from the spec; each such definition says so in its doc comment.
-/

namespace Testcontainers

abbrev Port := Nat

abbrev Host := String

abbrev Command := String

abbrev ContainerName := String

abbrev Dir := String

abbrev BuildContext := String

abbrev Image := String

abbrev Tag := String

/-- A time span in milliseconds (node-duration Duration). -/
structure Duration where
  millis : Nat
deriving DecidableEq, Repr

/-- An image reference: name plus tag. -/
structure RepoTag where
  image : Image
  tag : Tag
deriving DecidableEq, Repr

/-- Modelled from the spec: RepoTag.equals (repo-tag.ts is not under src/):
equality of image references is structural on name and tag. -/
def RepoTag.equals (a b : RepoTag) : Bool :=
  a.image == b.image && a.tag == b.tag

/-- The name:tag rendering used when talking to the engine. -/
def RepoTag.render (r : RepoTag) : String :=
  r.image ++ ":" ++ r.tag

/-- Error values of one orchestration. The code under src/ declares no error
classes: its only throw is the plain `new Error("Failed to build image")` at
the end of GenericContainerBuilder.build, embedded as `jsError` carrying
nothing but its message. Failures of the engine-facing operations are
supplied by the environment and may be any value of this type: `collaborator`
wraps an engine message, but a collaborator call can equally surface a plain
`jsError`, exactly as a thrown dockerode Error would. `notBound`,
`waitTimeout` and `portAllocation` are modelled from the spec taxonomy
(their defining files are not under src/). -/
inductive Err where
  | collaborator (msg : String)
  | notBound (port : Port)
  | waitTimeout
  | portAllocation
  | jsError (msg : String)
deriving DecidableEq, Repr

/-- Modelled from the spec: BoundPorts, the PortMap (bound-ports.ts is not
under src/): an immutable mapping from requested internal port to allocated
host port, iterated in request order. -/
structure BoundPorts where
  pairs : List (Port × Port)
deriving DecidableEq, Repr

/-- Modelled from the spec: BoundPorts.getBinding returns the host port for a
requested internal port and fails with a NotBoundError when the port was
never requested. -/
def BoundPorts.getBinding (bp : BoundPorts) (port : Port) : Except Err Port :=
  match bp.pairs.find? (fun pr => pr.1 == port) with
  | some pr => Except.ok pr.2
  | none => Except.error (Err.notBound port)

/-- The payload of one engine inspect call that the orchestrator consumes. -/
structure InspectResult where
  name : ContainerName
  running : Bool
deriving DecidableEq, Repr

/-- Modelled from the spec: ContainerState (container-state.ts is not under
src/): a point-in-time snapshot built from one inspect result. -/
structure ContainerState where
  inspectResult : InspectResult
deriving DecidableEq, Repr

/-- Combined captured output plus exit code of an exec. -/
structure ExecResult where
  output : String
  exitCode : Nat
deriving DecidableEq, Repr

/-- The engine-assigned container handle: an opaque id plus the per-container
operations, each supplied by the environment as a fallible function. -/
structure Container where
  id : String
  inspectOp : Except Err InspectResult
  stopContainerOp : Duration → Except Err Unit
  removeOp : Bool → Except Err Unit

inductive BindMode where
  | rw
  | ro
deriving DecidableEq, Repr

structure BindMount where
  source : Dir
  target : Dir
  bindMode : BindMode
deriving DecidableEq, Repr

/-- The creation request the orchestrator hands to the DockerClient. -/
structure CreateOptions where
  repoTag : RepoTag
  env : List (String × String)
  cmd : List Command
  bindMounts : List BindMount
  tmpFs : List (String × String)
  boundPorts : BoundPorts
  name : Option ContainerName

/-- The DockerClient interface consumed by GenericContainer: each engine call
is an environment-supplied operation that either succeeds or fails. -/
structure DockerClientM where
  pullOp : RepoTag → Except Err Unit
  createOp : CreateOptions → Except Err Container
  startOp : Container → Except Err Unit
  execOp : Container → List Command → Except Err ExecResult
  buildImageOp : RepoTag → BuildContext → List (String × String) → Except Err Unit
  fetchRepoTags : Except Err (List RepoTag)
  getHost : Host

/-- Modelled from the spec: the wait-strategy shape (wait-strategy.ts is not
under src/): a strategy carries a configured startup timeout, settable by
withStartupTimeout, and a readiness run consuming that timeout. -/
structure WaitStrategy where
  startupTimeout : Duration
  waitFn : Duration → Container → ContainerState → BoundPorts → Except Err Unit

def WaitStrategy.withStartupTimeout (s : WaitStrategy) (d : Duration) : WaitStrategy :=
  { s with startupTimeout := d }

def WaitStrategy.waitUntilReady (s : WaitStrategy) (c : Container) (st : ContainerState)
    (bp : BoundPorts) : Except Err Unit :=
  s.waitFn s.startupTimeout c st bp

/-- A port check policy (port-check.ts is not under src/): reports whether a
given port is observed open. -/
structure PortCheck where
  isBound : Port → Bool

/-- Modelled from the spec: HostPortWaitStrategy (wait-strategy.ts is not
under src/), the composite host+internal default policy: it is ready exactly
when, for every bound port pair, the host-port check succeeds on the host
port and the internal-port check succeeds on the internal port — both must
independently succeed — and otherwise fails with a WaitTimeoutError (the
real-time poll loop is abstracted to its outcome within the timeout). -/
def hostPortWaitStrategy (hostPortCheck internalPortCheck : PortCheck) : WaitStrategy :=
  { startupTimeout := Duration.mk 60000,
    waitFn := fun _ _ _ boundPorts =>
      if boundPorts.pairs.all
          (fun pr => hostPortCheck.isBound pr.2 && internalPortCheck.isBound pr.1)
      then Except.ok ()
      else Except.error Err.waitTimeout }

/-- The environment of one orchestration: the process-wide docker client, the
port allocator (Modelled from the spec: port-binder.ts is not under src/, so
PortBinder.bind is an environment operation yielding a PortMap or failing),
and the constructors of the two default checks. -/
structure StartEnv where
  client : DockerClientM
  bindPorts : List Port → Except Err BoundPorts
  mkHostPortCheck : Host → PortCheck
  mkInternalPortCheck : Container → PortCheck

/-- JS object update `obj[k] = v` on an insertion-ordered string-keyed object:
replaces the value in place when the key already exists, appends otherwise. -/
def objInsert {β : Type} (m : List (String × β)) (k : String) (v : β) : List (String × β) :=
  if m.any (fun kv => kv.1 == k) then m.map (fun kv => if kv.1 == k then (k, v) else kv)
  else m ++ [(k, v)]

/-- The accumulated builder state of GenericContainer. -/
structure GenericContainer where
  image : Image
  tag : Tag
  env : List (String × String)
  ports : List Port
  cmd : List Command
  bindMounts : List BindMount
  name : Option ContainerName
  tmpFs : List (String × String)
  waitStrategy : Option WaitStrategy
  startupTimeout : Duration

/-- The GenericContainer constructor: tag defaults to "latest"; the startup
timeout starts at 60000 milliseconds. -/
def GenericContainer.new (image : Image) (tag : Tag := "latest") : GenericContainer :=
  { image := image, tag := tag, env := [], ports := [], cmd := [], bindMounts := [],
    name := none, tmpFs := [], waitStrategy := none,
    startupTimeout := Duration.mk 60000 }

def GenericContainer.repoTag (c : GenericContainer) : RepoTag :=
  RepoTag.mk c.image c.tag

def GenericContainer.withCmd (c : GenericContainer) (cmd : List Command) : GenericContainer :=
  { c with cmd := cmd }

def GenericContainer.withName (c : GenericContainer) (name : ContainerName) : GenericContainer :=
  { c with name := some name }

def GenericContainer.withEnv (c : GenericContainer) (key value : String) : GenericContainer :=
  { c with env := objInsert c.env key value }

def GenericContainer.withTmpFs (c : GenericContainer) (tmpFs : List (String × String)) :
    GenericContainer :=
  { c with tmpFs := tmpFs }

def GenericContainer.withExposedPorts (c : GenericContainer) (ports : List Port) :
    GenericContainer :=
  { c with ports := ports }

def GenericContainer.withBindMount (c : GenericContainer) (source target : Dir)
    (bindMode : BindMode := BindMode.rw) : GenericContainer :=
  { c with bindMounts := c.bindMounts ++ [BindMount.mk source target bindMode] }

def GenericContainer.withStartupTimeout (c : GenericContainer) (startupTimeout : Duration) :
    GenericContainer :=
  { c with startupTimeout := startupTimeout }

def GenericContainer.withWaitStrategy (c : GenericContainer) (waitStrategy : WaitStrategy) :
    GenericContainer :=
  { c with waitStrategy := some waitStrategy }

/-- GenericContainer.hasRepoTagLocally: enumerate the known images via the
client and compare each against the requested reference. -/
def GenericContainer.hasRepoTagLocally (c : GenericContainer) (client : DockerClientM) :
    Except Err Bool :=
  match client.fetchRepoTags with
  | Except.error e => Except.error e
  | Except.ok repoTags => Except.ok (repoTags.any (fun rt => rt.equals c.repoTag))

/-- GenericContainer.getWaitStrategy: the explicitly configured strategy when
present, otherwise the composite host+internal default built from the client
host and the created container. -/
def GenericContainer.getWaitStrategy (c : GenericContainer) (env : StartEnv)
    (container : Container) : WaitStrategy :=
  match c.waitStrategy with
  | some ws => ws
  | none =>
    hostPortWaitStrategy (env.mkHostPortCheck env.client.getHost)
      (env.mkInternalPortCheck container)

/-- GenericContainer.waitForContainer: run the selected strategy, configured
with the builder startup timeout, until ready. -/
def GenericContainer.waitForContainer (c : GenericContainer) (env : StartEnv)
    (container : Container) (containerState : ContainerState) (boundPorts : BoundPorts) :
    Except Err Unit :=
  ((c.getWaitStrategy env container).withStartupTimeout c.startupTimeout).waitUntilReady
    container containerState boundPorts

/-- The object literal passed to dockerClient.create inside start. -/
def GenericContainer.createOptions (c : GenericContainer) (boundPorts : BoundPorts) :
    CreateOptions :=
  { repoTag := c.repoTag, env := c.env, cmd := c.cmd, bindMounts := c.bindMounts,
    tmpFs := c.tmpFs, boundPorts := boundPorts, name := c.name }

/-- The started handle: container, host, port map, inspected name, client. -/
structure StartedGenericContainer where
  container : Container
  host : Host
  boundPorts : BoundPorts
  name : ContainerName
  dockerClient : DockerClientM

/-- The terminal marker value returned by stop. -/
structure StoppedGenericContainer where
deriving DecidableEq, Repr

/-- The orchestration steps of GenericContainer.start, in the order they are
attempted; an event is recorded when its step is entered. -/
inductive StartEvent where
  | resolveImage
  | pullImage
  | bindPorts
  | createContainer
  | startContainer
  | inspectContainer
  | waitUntilReady
  | returnHandle
deriving DecidableEq, Repr

/-- GenericContainer.start: resolve/pull the image, bind the exposed ports,
create, start, inspect once, wait until ready, then build the handle. The
first component is the ordered trace of attempted steps; the second is the
propagated error or the started handle. -/
def GenericContainer.start (c : GenericContainer) (env : StartEnv) :
    List StartEvent × Except Err StartedGenericContainer :=
  match c.hasRepoTagLocally env.client with
  | Except.error e => ([StartEvent.resolveImage], Except.error e)
  | Except.ok hasLocally =>
    let tr1 : List StartEvent :=
      if hasLocally then [StartEvent.resolveImage]
      else [StartEvent.resolveImage, StartEvent.pullImage]
    let pullRes : Except Err Unit :=
      if hasLocally then Except.ok () else env.client.pullOp c.repoTag
    match pullRes with
    | Except.error e => (tr1, Except.error e)
    | Except.ok _ =>
      match env.bindPorts c.ports with
      | Except.error e => (tr1 ++ [StartEvent.bindPorts], Except.error e)
      | Except.ok boundPorts =>
        match env.client.createOp (c.createOptions boundPorts) with
        | Except.error e =>
          (tr1 ++ [StartEvent.bindPorts, StartEvent.createContainer], Except.error e)
        | Except.ok container =>
          match env.client.startOp container with
          | Except.error e =>
            (tr1 ++ [StartEvent.bindPorts, StartEvent.createContainer,
              StartEvent.startContainer], Except.error e)
          | Except.ok _ =>
            match container.inspectOp with
            | Except.error e =>
              (tr1 ++ [StartEvent.bindPorts, StartEvent.createContainer,
                StartEvent.startContainer, StartEvent.inspectContainer], Except.error e)
            | Except.ok inspectResult =>
              let containerState : ContainerState := ContainerState.mk inspectResult
              match c.waitForContainer env container containerState boundPorts with
              | Except.error e =>
                (tr1 ++ [StartEvent.bindPorts, StartEvent.createContainer,
                  StartEvent.startContainer, StartEvent.inspectContainer,
                  StartEvent.waitUntilReady], Except.error e)
              | Except.ok _ =>
                (tr1 ++ [StartEvent.bindPorts, StartEvent.createContainer,
                  StartEvent.startContainer, StartEvent.inspectContainer,
                  StartEvent.waitUntilReady, StartEvent.returnHandle],
                 Except.ok
                   { container := container, host := env.client.getHost,
                     boundPorts := boundPorts, name := inspectResult.name,
                     dockerClient := env.client })

/-- The resolved stop options: a graceful-stop timeout and a remove-volumes
flag. -/
structure StopOptions where
  timeout : Duration
  removeVolumes : Bool
deriving DecidableEq, Repr

/-- Caller-supplied stop options: every field is optional. -/
structure OptionalStopOptions where
  timeout : Option Duration := none
  removeVolumes : Option Bool := none
deriving DecidableEq, Repr

/-- Modelled from the spec: DEFAULT_STOP_OPTIONS (test-container.ts is not
under src/): the defaults are a graceful-stop timeout (its value is not fixed
by the spec; ten seconds here) and remove-volumes false. -/
def DEFAULT_STOP_OPTIONS : StopOptions :=
  { timeout := Duration.mk 10000, removeVolumes := false }

/-- The spread merge `\x7b ...DEFAULT_STOP_OPTIONS, ...options \x7d`: a field
present in the caller options overrides the default. -/
def resolveStopOptions (options : OptionalStopOptions) : StopOptions :=
  { timeout := options.timeout.getD DEFAULT_STOP_OPTIONS.timeout,
    removeVolumes := options.removeVolumes.getD DEFAULT_STOP_OPTIONS.removeVolumes }

/-- The two engine calls issued by StartedGenericContainer.stop, each
recording the argument it was issued with. -/
inductive StopEvent where
  | stopContainer (timeout : Duration)
  | removeContainer (removeVolumes : Bool)
deriving DecidableEq, Repr

/-- StartedGenericContainer.stop: merge the options over the defaults, issue
stop then remove against the container, return the terminal marker. -/
def StartedGenericContainer.stop (s : StartedGenericContainer)
    (options : OptionalStopOptions := {}) :
    List StopEvent × Except Err StoppedGenericContainer :=
  let resolvedOptions := resolveStopOptions options
  match s.container.stopContainerOp resolvedOptions.timeout with
  | Except.error e => ([StopEvent.stopContainer resolvedOptions.timeout], Except.error e)
  | Except.ok _ =>
    match s.container.removeOp resolvedOptions.removeVolumes with
    | Except.error e =>
      ([StopEvent.stopContainer resolvedOptions.timeout,
        StopEvent.removeContainer resolvedOptions.removeVolumes], Except.error e)
    | Except.ok _ =>
      ([StopEvent.stopContainer resolvedOptions.timeout,
        StopEvent.removeContainer resolvedOptions.removeVolumes],
       Except.ok StoppedGenericContainer.mk)

def StartedGenericContainer.getContainerIpAddress (s : StartedGenericContainer) : Host :=
  s.host

/-- StartedGenericContainer.getMappedPort delegates to BoundPorts.getBinding. -/
def StartedGenericContainer.getMappedPort (s : StartedGenericContainer) (port : Port) :
    Except Err Port :=
  s.boundPorts.getBinding port

def StartedGenericContainer.getName (s : StartedGenericContainer) : ContainerName :=
  s.name

def StartedGenericContainer.execCmd (s : StartedGenericContainer) (command : List Command) :
    Except Err ExecResult :=
  s.dockerClient.execOp s.container command

/-- The accumulated state of the image-build builder: a build context plus
key/value build arguments (a JS object, insertion ordered). -/
structure GenericContainerBuilder where
  context : BuildContext
  buildArgs : List (String × String)

def GenericContainerBuilder.new (context : BuildContext) : GenericContainerBuilder :=
  { context := context, buildArgs := [] }

def GenericContainerBuilder.withBuildArg (b : GenericContainerBuilder) (key value : String) :
    GenericContainerBuilder :=
  { b with buildArgs := objInsert b.buildArgs key value }

/-- The environment of one build: the stream of fresh unique identifiers the
uuid generator hands out (successive draws are successive indices) and the
process-wide docker client. -/
structure BuildEnv where
  uuid : Nat → String
  client : DockerClientM

/-- The steps of GenericContainerBuilder.build, in order: two uuid draws, the
build request with its arguments, the local-listing verification. -/
inductive BuildEvent where
  | nextUuid
  | buildImage (repoTag : RepoTag) (context : BuildContext) (buildArgs : List (String × String))
  | verifyListed (repoTag : RepoTag)
deriving DecidableEq, Repr

/-- GenericContainerBuilder.build: draw a throwaway image name and tag from
the uuid generator, request the image build with the configured context and
build arguments, construct the container object, then verify the reference is
locally listed; when it is not, fail with the build-verification error. -/
def GenericContainerBuilder.build (b : GenericContainerBuilder) (env : BuildEnv) :
    List BuildEvent × Except Err GenericContainer :=
  let image := env.uuid 0
  let tag := env.uuid 1
  let repoTag := RepoTag.mk image tag
  let tr1 : List BuildEvent :=
    [BuildEvent.nextUuid, BuildEvent.nextUuid,
     BuildEvent.buildImage repoTag b.context b.buildArgs]
  match env.client.buildImageOp repoTag b.context b.buildArgs with
  | Except.error e => (tr1, Except.error e)
  | Except.ok _ =>
    let container := GenericContainer.new image tag
    let tr2 := tr1 ++ [BuildEvent.verifyListed repoTag]
    match container.hasRepoTagLocally env.client with
    | Except.error e => (tr2, Except.error e)
    | Except.ok hasLocally =>
      if hasLocally then (tr2, Except.ok container)
      else (tr2, Except.error (Err.jsError "Failed to build image"))

/-- One entry of the dockerode listImages payload: RepoTags is null (none)
for a dangling image. -/
structure ImageInfo where
  RepoTags : Option (List String)
deriving DecidableEq, Repr

/-- The dockerode engine surface consumed by DockerodeClient. -/
structure DockerodeM where
  listImages : Except Err (List ImageInfo)

namespace DockerodeClient

/-- DockerodeClient.isDanglingImage: RepoTags is null. -/
def isDanglingImage (image : ImageInfo) : Bool :=
  image.RepoTags.isNone

/-- Embeds `const [imageName, tag] = imageRepoTag.split(":")` followed by
`new RepoTag(imageName, tag)`: split on every colon and keep the first two
components (a missing second component is embedded as ""). -/
def parseRepoTag (s : String) : RepoTag :=
  let parts := (s.toList.splitOn ':').map (fun cs => String.mk cs)
  RepoTag.mk (parts.headD "") ((parts.drop 1).headD "")

/-- The reduce body of DockerodeClient.fetchRepoTags: skip dangling images,
otherwise append the parsed references of every listed name:tag string. -/
def fetchRepoTagsPure (images : List ImageInfo) : List RepoTag :=
  images.foldl
    (fun repoTags image =>
      if isDanglingImage image then repoTags
      else repoTags ++ (image.RepoTags.getD []).map parseRepoTag)
    []

/-- DockerodeClient.fetchRepoTags: list the engine images and fold them into
tagged references. -/
def fetchRepoTags (dockerode : DockerodeM) : Except Err (List RepoTag) :=
  match dockerode.listImages with
  | Except.error e => Except.error e
  | Except.ok images => Except.ok (fetchRepoTagsPure images)

/-- DockerodeClient.getExposedPorts: one object key per bound internal port,
in PortMap iteration order, each mapped to an empty object. -/
def getExposedPorts (boundPorts : BoundPorts) : List (String × Unit) :=
  boundPorts.pairs.foldl
    (fun dockerodeExposedPorts pr => objInsert dockerodeExposedPorts (toString pr.1) ())
    []

/-- DockerodeClient.getPortBindings: one object key per bound internal port,
in PortMap iteration order, each mapped to the one-element list holding its
host port rendered as a string. -/
def getPortBindings (boundPorts : BoundPorts) : List (String × List String) :=
  boundPorts.pairs.foldl
    (fun dockerodePortBindings pr =>
      objInsert dockerodePortBindings (toString pr.1) [toString pr.2])
    []

/-- DockerodeClient.getEnv: render each key/value entry as key=value. -/
def getEnv (env : List (String × String)) : List String :=
  env.foldl (fun dockerodeEnvironment kv => dockerodeEnvironment ++ [kv.1 ++ "=" ++ kv.2]) []

def renderBindMode (bindMode : BindMode) : String :=
  match bindMode with
  | BindMode.rw => "rw"
  | BindMode.ro => "ro"

/-- DockerodeClient.getBindMounts: render each mount as source:target:mode. -/
def getBindMounts (bindMounts : List BindMount) : List String :=
  bindMounts.map (fun bm => bm.source ++ ":" ++ bm.target ++ ":" ++ renderBindMode bm.bindMode)

/-- The dockerode createContainer request shape. -/
structure CreateRequest where
  name : Option ContainerName
  Image : String
  Env : List String
  ExposedPorts : List (String × Unit)
  Cmd : List Command
  PortBindings : List (String × List String)
  Binds : List String
  Tmpfs : List (String × String)

/-- The request object DockerodeClient.create sends to
dockerode.createContainer. -/
def createRequest (options : CreateOptions) : CreateRequest :=
  { name := options.name,
    Image := options.repoTag.render,
    Env := getEnv options.env,
    ExposedPorts := getExposedPorts options.boundPorts,
    Cmd := options.cmd,
    PortBindings := getPortBindings options.boundPorts,
    Binds := getBindMounts options.bindMounts,
    Tmpfs := options.tmpFs }

end DockerodeClient

/-- The error of one orchestration step at the arguments the run actually fed
it: image resolution, pull, port binding, create, start, inspect, or the
readiness wait. -/
def startStepError (c : GenericContainer) (env : StartEnv) (e : Err) : Prop :=
  c.hasRepoTagLocally env.client = Except.error e
  ∨ (c.hasRepoTagLocally env.client = Except.ok false
      ∧ env.client.pullOp c.repoTag = Except.error e)
  ∨ env.bindPorts c.ports = Except.error e
  ∨ (∃ bp, env.bindPorts c.ports = Except.ok bp
      ∧ env.client.createOp (c.createOptions bp) = Except.error e)
  ∨ (∃ bp container, env.bindPorts c.ports = Except.ok bp
      ∧ env.client.createOp (c.createOptions bp) = Except.ok container
      ∧ env.client.startOp container = Except.error e)
  ∨ (∃ bp container, env.bindPorts c.ports = Except.ok bp
      ∧ env.client.createOp (c.createOptions bp) = Except.ok container
      ∧ env.client.startOp container = Except.ok ()
      ∧ container.inspectOp = Except.error e)
  ∨ (∃ bp container ir, env.bindPorts c.ports = Except.ok bp
      ∧ env.client.createOp (c.createOptions bp) = Except.ok container
      ∧ env.client.startOp container = Except.ok ()
      ∧ container.inspectOp = Except.ok ir
      ∧ c.waitForContainer env container (ContainerState.mk ir) bp = Except.error e)

/-- A concrete inspect payload used to exercise the definitions. -/
def testInspectResult : InspectResult :=
  { name := "test-name", running := true }

/-- A concrete healthy container whose operations all succeed. -/
def testContainer : Container :=
  { id := "abc123", inspectOp := Except.ok testInspectResult,
    stopContainerOp := fun _ => Except.ok (),
    removeOp := fun _ => Except.ok () }

/-- A concrete client: one locally known image redis:5, every call succeeds. -/
def testClient : DockerClientM :=
  { pullOp := fun _ => Except.ok (),
    createOp := fun _ => Except.ok testContainer,
    startOp := fun _ => Except.ok (),
    execOp := fun _ _ => Except.ok { output := "", exitCode := 0 },
    buildImageOp := fun _ _ _ => Except.ok (),
    fetchRepoTags := Except.ok [RepoTag.mk "redis" "5"],
    getHost := "localhost" }

/-- A concrete healthy environment around testClient. -/
def testEnv : StartEnv :=
  { client := testClient,
    bindPorts := fun ports => Except.ok (BoundPorts.mk (ports.map (fun p => (p, p + 30000)))),
    mkHostPortCheck := fun _ => PortCheck.mk (fun _ => true),
    mkInternalPortCheck := fun _ => PortCheck.mk (fun _ => true) }

/-- A client identical to testClient except that container creation fails. -/
def testClientCreateFails : DockerClientM :=
  { testClient with createOp := fun _ => Except.error (Err.collaborator "boom") }

/-- An environment whose create step fails. -/
def testEnvCreateFails : StartEnv :=
  { testEnv with client := testClientCreateFails }

/-- A configuration for an image that is not locally known. -/
def testCfg : GenericContainer :=
  (GenericContainer.new "alpine" "3.12").withExposedPorts [80]

/-- A configuration for the locally known image redis:5. -/
def testCfgLocal : GenericContainer :=
  GenericContainer.new "redis" "5"

/-- Case analysis of one start run: a successful run has the full ordered
trace (with the pull step exactly on the not-locally-known branch), a failed
run never reaches the handle step and returns the error of the step that
failed, and the pull step is attempted exactly when resolution reported the
image absent. -/
theorem start_case_analysis (c : GenericContainer) (env : StartEnv) :
    ((c.start env).2.isOk = true →
      ((c.hasRepoTagLocally env.client = Except.ok true ∧
        (c.start env).1 =
          [StartEvent.resolveImage, StartEvent.bindPorts, StartEvent.createContainer,
           StartEvent.startContainer, StartEvent.inspectContainer,
           StartEvent.waitUntilReady, StartEvent.returnHandle])
       ∨ (c.hasRepoTagLocally env.client = Except.ok false ∧
        (c.start env).1 =
          [StartEvent.resolveImage, StartEvent.pullImage, StartEvent.bindPorts,
           StartEvent.createContainer, StartEvent.startContainer,
           StartEvent.inspectContainer, StartEvent.waitUntilReady,
           StartEvent.returnHandle])))
    ∧ (∀ e, (c.start env).2 = Except.error e →
        StartEvent.returnHandle ∉ (c.start env).1 ∧ startStepError c env e)
    ∧ (StartEvent.pullImage ∈ (c.start env).1 ↔
        c.hasRepoTagLocally env.client = Except.ok false) := by
  cases hres : c.hasRepoTagLocally env.client with
  | error e =>
    have hrun : c.start env = ([StartEvent.resolveImage], Except.error e) := by
      simp [GenericContainer.start, hres]
    refine ⟨?_, ?_, ?_⟩
    · intro hok
      rw [hrun] at hok
      simp [Except.isOk, Except.toBool] at hok
    · intro e' he'
      rw [hrun] at he'
      have h2 : (Except.error e : Except Err StartedGenericContainer) = Except.error e' := he'
      injection h2 with h
      cases h
      refine ⟨?_, Or.inl hres⟩
      rw [hrun]
      simp
    · rw [hrun]
      simp
  | ok hasLocally =>
    cases hasLocally with
    | true =>
      cases hbind : env.bindPorts c.ports with
      | error e =>
        have hrun : c.start env =
            ([StartEvent.resolveImage, StartEvent.bindPorts], Except.error e) := by
          simp [GenericContainer.start, hres, hbind]
        refine ⟨?_, ?_, ?_⟩
        · intro hok
          rw [hrun] at hok
          simp [Except.isOk, Except.toBool] at hok
        · intro e' he'
          rw [hrun] at he'
          have h2 : (Except.error e : Except Err StartedGenericContainer) =
            Except.error e' := he'
          injection h2 with h
          cases h
          refine ⟨?_, Or.inr (Or.inr (Or.inl hbind))⟩
          rw [hrun]
          simp
        · rw [hrun]
          simp
      | ok bp =>
        cases hcreate : env.client.createOp (c.createOptions bp) with
        | error e =>
          have hrun : c.start env =
              ([StartEvent.resolveImage, StartEvent.bindPorts,
                StartEvent.createContainer], Except.error e) := by
            simp [GenericContainer.start, hres, hbind, hcreate]
          refine ⟨?_, ?_, ?_⟩
          · intro hok
            rw [hrun] at hok
            simp [Except.isOk, Except.toBool] at hok
          · intro e' he'
            rw [hrun] at he'
            have h2 : (Except.error e : Except Err StartedGenericContainer) =
              Except.error e' := he'
            injection h2 with h
            cases h
            refine ⟨?_, Or.inr (Or.inr (Or.inr (Or.inl ⟨bp, hbind, hcreate⟩)))⟩
            rw [hrun]
            simp
          · rw [hrun]
            simp
        | ok container =>
          cases hstart : env.client.startOp container with
          | error e =>
            have hrun : c.start env =
                ([StartEvent.resolveImage, StartEvent.bindPorts,
                  StartEvent.createContainer, StartEvent.startContainer],
                 Except.error e) := by
              simp [GenericContainer.start, hres, hbind, hcreate, hstart]
            refine ⟨?_, ?_, ?_⟩
            · intro hok
              rw [hrun] at hok
              simp [Except.isOk, Except.toBool] at hok
            · intro e' he'
              rw [hrun] at he'
              have h2 : (Except.error e : Except Err StartedGenericContainer) =
                Except.error e' := he'
              injection h2 with h
              cases h
              refine ⟨?_, Or.inr (Or.inr (Or.inr (Or.inr (Or.inl
                ⟨bp, container, hbind, hcreate, hstart⟩))))⟩
              rw [hrun]
              simp
            · rw [hrun]
              simp
          | ok u =>
            cases hinspect : container.inspectOp with
            | error e =>
              have hrun : c.start env =
                  ([StartEvent.resolveImage, StartEvent.bindPorts,
                    StartEvent.createContainer, StartEvent.startContainer,
                    StartEvent.inspectContainer], Except.error e) := by
                simp [GenericContainer.start, hres, hbind, hcreate, hstart, hinspect]
              refine ⟨?_, ?_, ?_⟩
              · intro hok
                rw [hrun] at hok
                simp [Except.isOk, Except.toBool] at hok
              · intro e' he'
                rw [hrun] at he'
                have h2 : (Except.error e : Except Err StartedGenericContainer) =
                  Except.error e' := he'
                injection h2 with h
                cases h
                refine ⟨?_, Or.inr (Or.inr (Or.inr (Or.inr (Or.inr (Or.inl
                  ⟨bp, container, hbind, hcreate, by cases u; exact hstart,
                    hinspect⟩)))))⟩
                rw [hrun]
                simp
              · rw [hrun]
                simp
            | ok ir =>
              cases hwait : c.waitForContainer env container (ContainerState.mk ir) bp with
              | error e =>
                have hrun : c.start env =
                    ([StartEvent.resolveImage, StartEvent.bindPorts,
                      StartEvent.createContainer, StartEvent.startContainer,
                      StartEvent.inspectContainer, StartEvent.waitUntilReady],
                     Except.error e) := by
                  simp [GenericContainer.start, hres, hbind, hcreate, hstart, hinspect,
                    hwait]
                refine ⟨?_, ?_, ?_⟩
                · intro hok
                  rw [hrun] at hok
                  simp [Except.isOk, Except.toBool] at hok
                · intro e' he'
                  rw [hrun] at he'
                  have h2 : (Except.error e : Except Err StartedGenericContainer) =
                    Except.error e' := he'
                  injection h2 with h
                  cases h
                  refine ⟨?_, Or.inr (Or.inr (Or.inr (Or.inr (Or.inr (Or.inr
                    ⟨bp, container, ir, hbind, hcreate, by cases u; exact hstart,
                      hinspect, hwait⟩)))))⟩
                  rw [hrun]
                  simp
                · rw [hrun]
                  simp
              | ok v =>
                have hrun : c.start env =
                    ([StartEvent.resolveImage, StartEvent.bindPorts,
                      StartEvent.createContainer, StartEvent.startContainer,
                      StartEvent.inspectContainer, StartEvent.waitUntilReady,
                      StartEvent.returnHandle],
                     Except.ok
                       { container := container, host := env.client.getHost,
                         boundPorts := bp, name := ir.name,
                         dockerClient := env.client }) := by
                  simp [GenericContainer.start, hres, hbind, hcreate, hstart, hinspect,
                    hwait]
                refine ⟨?_, ?_, ?_⟩
                · intro _
                  exact Or.inl ⟨rfl, by rw [hrun]⟩
                · intro e' he'
                  rw [hrun] at he'
                  exact Except.noConfusion he'
                · rw [hrun]
                  simp
    | false =>
      cases hpull : env.client.pullOp c.repoTag with
      | error e =>
        have hrun : c.start env =
            ([StartEvent.resolveImage, StartEvent.pullImage], Except.error e) := by
          simp [GenericContainer.start, hres, hpull]
        refine ⟨?_, ?_, ?_⟩
        · intro hok
          rw [hrun] at hok
          simp [Except.isOk, Except.toBool] at hok
        · intro e' he'
          rw [hrun] at he'
          have h2 : (Except.error e : Except Err StartedGenericContainer) =
            Except.error e' := he'
          injection h2 with h
          cases h
          refine ⟨?_, Or.inr (Or.inl ⟨hres, hpull⟩)⟩
          rw [hrun]
          simp
        · rw [hrun]
          simp [hres]
      | ok w =>
        cases hbind : env.bindPorts c.ports with
        | error e =>
          have hrun : c.start env =
              ([StartEvent.resolveImage, StartEvent.pullImage, StartEvent.bindPorts],
               Except.error e) := by
            simp [GenericContainer.start, hres, hpull, hbind]
          refine ⟨?_, ?_, ?_⟩
          · intro hok
            rw [hrun] at hok
            simp [Except.isOk, Except.toBool] at hok
          · intro e' he'
            rw [hrun] at he'
            have h2 : (Except.error e : Except Err StartedGenericContainer) =
              Except.error e' := he'
            injection h2 with h
            cases h
            refine ⟨?_, Or.inr (Or.inr (Or.inl hbind))⟩
            rw [hrun]
            simp
          · rw [hrun]
            simp [hres]
        | ok bp =>
          cases hcreate : env.client.createOp (c.createOptions bp) with
          | error e =>
            have hrun : c.start env =
                ([StartEvent.resolveImage, StartEvent.pullImage, StartEvent.bindPorts,
                  StartEvent.createContainer], Except.error e) := by
              simp [GenericContainer.start, hres, hpull, hbind, hcreate]
            refine ⟨?_, ?_, ?_⟩
            · intro hok
              rw [hrun] at hok
              simp [Except.isOk, Except.toBool] at hok
            · intro e' he'
              rw [hrun] at he'
              have h2 : (Except.error e : Except Err StartedGenericContainer) =
                Except.error e' := he'
              injection h2 with h
              cases h
              refine ⟨?_, Or.inr (Or.inr (Or.inr (Or.inl ⟨bp, hbind, hcreate⟩)))⟩
              rw [hrun]
              simp
            · rw [hrun]
              simp [hres]
          | ok container =>
            cases hstart : env.client.startOp container with
            | error e =>
              have hrun : c.start env =
                  ([StartEvent.resolveImage, StartEvent.pullImage, StartEvent.bindPorts,
                    StartEvent.createContainer, StartEvent.startContainer],
                   Except.error e) := by
                simp [GenericContainer.start, hres, hpull, hbind, hcreate, hstart]
              refine ⟨?_, ?_, ?_⟩
              · intro hok
                rw [hrun] at hok
                simp [Except.isOk, Except.toBool] at hok
              · intro e' he'
                rw [hrun] at he'
                have h2 : (Except.error e : Except Err StartedGenericContainer) =
                  Except.error e' := he'
                injection h2 with h
                cases h
                refine ⟨?_, Or.inr (Or.inr (Or.inr (Or.inr (Or.inl
                  ⟨bp, container, hbind, hcreate, hstart⟩))))⟩
                rw [hrun]
                simp
              · rw [hrun]
                simp [hres]
            | ok u =>
              cases hinspect : container.inspectOp with
              | error e =>
                have hrun : c.start env =
                    ([StartEvent.resolveImage, StartEvent.pullImage,
                      StartEvent.bindPorts, StartEvent.createContainer,
                      StartEvent.startContainer, StartEvent.inspectContainer],
                     Except.error e) := by
                  simp [GenericContainer.start, hres, hpull, hbind, hcreate, hstart,
                    hinspect]
                refine ⟨?_, ?_, ?_⟩
                · intro hok
                  rw [hrun] at hok
                  simp [Except.isOk, Except.toBool] at hok
                · intro e' he'
                  rw [hrun] at he'
                  have h2 : (Except.error e : Except Err StartedGenericContainer) =
                    Except.error e' := he'
                  injection h2 with h
                  cases h
                  refine ⟨?_, Or.inr (Or.inr (Or.inr (Or.inr (Or.inr (Or.inl
                    ⟨bp, container, hbind, hcreate, by cases u; exact hstart,
                      hinspect⟩)))))⟩
                  rw [hrun]
                  simp
                · rw [hrun]
                  simp [hres]
              | ok ir =>
                cases hwait : c.waitForContainer env container (ContainerState.mk ir) bp with
                | error e =>
                  have hrun : c.start env =
                      ([StartEvent.resolveImage, StartEvent.pullImage,
                        StartEvent.bindPorts, StartEvent.createContainer,
                        StartEvent.startContainer, StartEvent.inspectContainer,
                        StartEvent.waitUntilReady], Except.error e) := by
                    simp [GenericContainer.start, hres, hpull, hbind, hcreate, hstart,
                      hinspect, hwait]
                  refine ⟨?_, ?_, ?_⟩
                  · intro hok
                    rw [hrun] at hok
                    simp [Except.isOk, Except.toBool] at hok
                  · intro e' he'
                    rw [hrun] at he'
                    have h2 : (Except.error e : Except Err StartedGenericContainer) =
                      Except.error e' := he'
                    injection h2 with h
                    cases h
                    refine ⟨?_, Or.inr (Or.inr (Or.inr (Or.inr (Or.inr (Or.inr
                      ⟨bp, container, ir, hbind, hcreate, by cases u; exact hstart,
                        hinspect, hwait⟩)))))⟩
                    rw [hrun]
                    simp
                  · rw [hrun]
                    simp [hres]
                | ok v =>
                  have hrun : c.start env =
                      ([StartEvent.resolveImage, StartEvent.pullImage,
                        StartEvent.bindPorts, StartEvent.createContainer,
                        StartEvent.startContainer, StartEvent.inspectContainer,
                        StartEvent.waitUntilReady, StartEvent.returnHandle],
                       Except.ok
                         { container := container, host := env.client.getHost,
                           boundPorts := bp, name := ir.name,
                           dockerClient := env.client }) := by
                    simp [GenericContainer.start, hres, hpull, hbind, hcreate, hstart,
                      hinspect, hwait]
                  refine ⟨?_, ?_, ?_⟩
                  · intro _
                    exact Or.inr ⟨rfl, by rw [hrun]⟩
                  · intro e' he'
                    rw [hrun] at he'
                    exact Except.noConfusion he'
                  · rw [hrun]
                    simp [hres]

/-- Claim C1: for every invocation of GenericContainer.start that returns a
started handle, the orchestration steps were performed in the strict order
resolve/pull the image, bind the exposed ports, create the container, start
it, inspect it once, run the wait strategy, construct the handle — with no
step skipped or reordered (the pull step is present exactly when resolution
found the image absent). -/
theorem C1_start_orders_steps (c : GenericContainer) (env : StartEnv)
    (hok : (c.start env).2.isOk = true) :
    (c.start env).1 =
      [StartEvent.resolveImage, StartEvent.bindPorts, StartEvent.createContainer,
       StartEvent.startContainer, StartEvent.inspectContainer,
       StartEvent.waitUntilReady, StartEvent.returnHandle]
    ∨ (c.start env).1 =
      [StartEvent.resolveImage, StartEvent.pullImage, StartEvent.bindPorts,
       StartEvent.createContainer, StartEvent.startContainer,
       StartEvent.inspectContainer, StartEvent.waitUntilReady,
       StartEvent.returnHandle] := by
  rcases (start_case_analysis c env).1 hok with ⟨_, h⟩ | ⟨_, h⟩
  · exact Or.inl h
  · exact Or.inr h

/-- Witness for C1: a successful concrete run takes the full ordered trace. -/
theorem C1_start_orders_steps_witness :
    (testCfg.start testEnv).1 =
      [StartEvent.resolveImage, StartEvent.bindPorts, StartEvent.createContainer,
       StartEvent.startContainer, StartEvent.inspectContainer,
       StartEvent.waitUntilReady, StartEvent.returnHandle]
    ∨ (testCfg.start testEnv).1 =
      [StartEvent.resolveImage, StartEvent.pullImage, StartEvent.bindPorts,
       StartEvent.createContainer, StartEvent.startContainer,
       StartEvent.inspectContainer, StartEvent.waitUntilReady,
       StartEvent.returnHandle] :=
  C1_start_orders_steps testCfg testEnv (by rfl)

/-- Claim C2: when any step of start fails, the error of that step is
propagated unchanged and the run never reaches the handle-construction step,
so no started handle, partial or otherwise, is returned. -/
theorem C2_start_failure_propagates (c : GenericContainer) (env : StartEnv) (e : Err)
    (herr : (c.start env).2 = Except.error e) :
    StartEvent.returnHandle ∉ (c.start env).1 ∧ startStepError c env e :=
  (start_case_analysis c env).2.1 e herr

/-- Witness for C2: a concrete run whose create step fails propagates that
collaborator error and never reaches the handle step. -/
theorem C2_start_failure_propagates_witness :
    StartEvent.returnHandle ∉ (testCfg.start testEnvCreateFails).1
    ∧ startStepError testCfg testEnvCreateFails (Err.collaborator "boom") :=
  C2_start_failure_propagates testCfg testEnvCreateFails (Err.collaborator "boom") (by rfl)

/-- Claim C3: during start, the image is pulled iff no locally known
reference is structurally equal to the requested one; the check enumerates
the client listing and compares each entry with RepoTag.equals, which is
structural equality on name and tag. -/
theorem C3_pull_iff_absent (c : GenericContainer) (env : StartEnv)
    (tags : List RepoTag) (hfetch : env.client.fetchRepoTags = Except.ok tags) :
    (StartEvent.pullImage ∈ (c.start env).1 ↔
      tags.any (fun rt => rt.equals c.repoTag) = false)
    ∧ c.hasRepoTagLocally env.client =
        Except.ok (tags.any (fun rt => rt.equals c.repoTag))
    ∧ (∀ a b : RepoTag, a.equals b = true ↔ a.image = b.image ∧ a.tag = b.tag) := by
  have hloc : c.hasRepoTagLocally env.client =
      Except.ok (tags.any (fun rt => rt.equals c.repoTag)) := by
    simp [GenericContainer.hasRepoTagLocally, hfetch]
  refine ⟨?_, hloc, ?_⟩
  · rw [(start_case_analysis c env).2.2, hloc]
    simp
  · intro a b
    simp [RepoTag.equals, Bool.and_eq_true, beq_iff_eq]

/-- Witness for C3: alpine:3.12 is absent from a listing holding only
redis:5, so the concrete run pulls. -/
theorem C3_pull_iff_absent_witness :
    (StartEvent.pullImage ∈ (testCfg.start testEnv).1 ↔
      ([RepoTag.mk "redis" "5"].any (fun rt => rt.equals testCfg.repoTag) = false))
    ∧ testCfg.hasRepoTagLocally testEnv.client =
        Except.ok ([RepoTag.mk "redis" "5"].any (fun rt => rt.equals testCfg.repoTag))
    ∧ (∀ a b : RepoTag, a.equals b = true ↔ a.image = b.image ∧ a.tag = b.tag) :=
  C3_pull_iff_absent testCfg testEnv [RepoTag.mk "redis" "5"] (by rfl)

/-- Both checks of a pair succeed on every element iff each check succeeds on
every element on its own side. -/
theorem list_all_and {α : Type} (l : List α) (f g : α → Bool) :
    l.all (fun x => f x && g x) = (l.all f && l.all g) := by
  induction l with
  | nil => rfl
  | cons a t ih =>
    simp only [List.all_cons, ih]
    cases f a <;> cases g a <;> simp

/-- A concrete explicitly configured wait strategy. -/
def testWaitStrategy : WaitStrategy :=
  { startupTimeout := Duration.mk 5, waitFn := fun _ _ _ _ => Except.ok () }

/-- testCfg with an explicitly configured wait strategy. -/
def testCfgWS : GenericContainer :=
  testCfg.withWaitStrategy testWaitStrategy

/-- Claim C4: waitUntilReady is run with the explicitly configured strategy
when withWaitStrategy was called, otherwise with the composite host+internal
default, whose readiness requires the host-port check and the internal-port
check to succeed independently. -/
theorem C4_wait_strategy_selection (c : GenericContainer) (env : StartEnv)
    (container : Container) :
    (∀ ws, c.waitStrategy = some ws → c.getWaitStrategy env container = ws)
    ∧ (c.waitStrategy = none →
        c.getWaitStrategy env container =
          hostPortWaitStrategy (env.mkHostPortCheck env.client.getHost)
            (env.mkInternalPortCheck container))
    ∧ (∀ hostPortCheck internalPortCheck : PortCheck, ∀ d : Duration,
        ∀ co : Container, ∀ st : ContainerState, ∀ bp : BoundPorts,
        (hostPortWaitStrategy hostPortCheck internalPortCheck).waitFn d co st bp =
            Except.ok () ↔
          (bp.pairs.all (fun pr => hostPortCheck.isBound pr.2) = true ∧
           bp.pairs.all (fun pr => internalPortCheck.isBound pr.1) = true))
    ∧ (∀ st bp, c.waitForContainer env container st bp =
        ((c.getWaitStrategy env container).withStartupTimeout
          c.startupTimeout).waitUntilReady container st bp) := by
  refine ⟨?_, ?_, ?_, ?_⟩
  · intro ws hws
    simp [GenericContainer.getWaitStrategy, hws]
  · intro hnone
    simp [GenericContainer.getWaitStrategy, hnone]
  · intro hostPortCheck internalPortCheck d co st bp
    simp only [hostPortWaitStrategy]
    rw [list_all_and]
    by_cases hh : bp.pairs.all (fun pr => hostPortCheck.isBound pr.2) = true <;>
      by_cases hi : bp.pairs.all (fun pr => internalPortCheck.isBound pr.1) = true <;>
      simp [hh, hi]
  · intro st bp
    rfl

/-- Witness for C4: the explicitly configured strategy is selected for a
configuration built with withWaitStrategy. -/
theorem C4_wait_strategy_selection_witness :
    testCfgWS.getWaitStrategy testEnv testContainer = testWaitStrategy :=
  (C4_wait_strategy_selection testCfgWS testEnv testContainer).1 testWaitStrategy (by rfl)

/-- One chained builder configuration call on GenericContainer. -/
inductive BuilderOp where
  | withCmd (cmd : List Command)
  | withName (name : ContainerName)
  | withEnv (key value : String)
  | withTmpFs (tmpFs : List (String × String))
  | withExposedPorts (ports : List Port)
  | withBindMount (source target : Dir) (bindMode : BindMode)
  | withStartupTimeout (startupTimeout : Duration)
  | withWaitStrategy (waitStrategy : WaitStrategy)

/-- Dispatch one builder call to the corresponding GenericContainer method. -/
def BuilderOp.apply (c : GenericContainer) : BuilderOp → GenericContainer
  | BuilderOp.withCmd cmd => c.withCmd cmd
  | BuilderOp.withName name => c.withName name
  | BuilderOp.withEnv key value => c.withEnv key value
  | BuilderOp.withTmpFs tmpFs => c.withTmpFs tmpFs
  | BuilderOp.withExposedPorts ports => c.withExposedPorts ports
  | BuilderOp.withBindMount source target bindMode => c.withBindMount source target bindMode
  | BuilderOp.withStartupTimeout startupTimeout => c.withStartupTimeout startupTimeout
  | BuilderOp.withWaitStrategy waitStrategy => c.withWaitStrategy waitStrategy

/-- A chain of builder calls, applied left to right. -/
def applyOps (c : GenericContainer) (ops : List BuilderOp) : GenericContainer :=
  ops.foldl BuilderOp.apply c

def BuilderOp.isWithStartupTimeout : BuilderOp → Bool
  | BuilderOp.withStartupTimeout _ => true
  | _ => false

/-- Builder calls other than withStartupTimeout leave the startup timeout
unchanged. -/
theorem builderOp_preserves_startupTimeout (c : GenericContainer) (op : BuilderOp)
    (h : op.isWithStartupTimeout = false) :
    (BuilderOp.apply c op).startupTimeout = c.startupTimeout := by
  cases op <;> simp_all [BuilderOp.apply, BuilderOp.isWithStartupTimeout,
    GenericContainer.withCmd, GenericContainer.withName, GenericContainer.withEnv,
    GenericContainer.withTmpFs, GenericContainer.withExposedPorts,
    GenericContainer.withBindMount, GenericContainer.withStartupTimeout,
    GenericContainer.withWaitStrategy]

/-- A chain without withStartupTimeout leaves the startup timeout unchanged. -/
theorem applyOps_preserves_startupTimeout (c : GenericContainer) (ops : List BuilderOp)
    (h : ∀ op ∈ ops, op.isWithStartupTimeout = false) :
    (applyOps c ops).startupTimeout = c.startupTimeout := by
  induction ops generalizing c with
  | nil => rfl
  | cons op t ih =>
    have hop : op.isWithStartupTimeout = false := h op (List.mem_cons_self op t)
    have ht : ∀ o ∈ t, o.isWithStartupTimeout = false :=
      fun o ho => h o (List.mem_cons_of_mem op ho)
    show (applyOps (BuilderOp.apply c op) t).startupTimeout = c.startupTimeout
    rw [ih (BuilderOp.apply c op) ht, builderOp_preserves_startupTimeout c op hop]

/-- Claim C5: a builder chain that never calls withStartupTimeout yields the
default 60000 millisecond startup timeout; a chain whose last
withStartupTimeout call passes d yields timeout d; and waitForContainer runs
the selected strategy with exactly the configured startup timeout. -/
theorem C5_startup_timeout (image : Image) (tag : Tag) (ops ops₁ ops₂ : List BuilderOp)
    (c : GenericContainer) (d : Duration)
    (hnone : ∀ op ∈ ops, op.isWithStartupTimeout = false)
    (hnone₂ : ∀ op ∈ ops₂, op.isWithStartupTimeout = false) :
    (applyOps (GenericContainer.new image tag) ops).startupTimeout = Duration.mk 60000
    ∧ (applyOps c (ops₁ ++ BuilderOp.withStartupTimeout d :: ops₂)).startupTimeout = d
    ∧ (∀ c' : GenericContainer, ∀ env : StartEnv, ∀ container : Container,
        ∀ st : ContainerState, ∀ bp : BoundPorts,
        c'.waitForContainer env container st bp =
          (c'.getWaitStrategy env container).waitFn c'.startupTimeout container st bp) := by
  refine ⟨?_, ?_, ?_⟩
  · rw [applyOps_preserves_startupTimeout _ _ hnone]
    rfl
  · show (List.foldl BuilderOp.apply c (ops₁ ++ BuilderOp.withStartupTimeout d :: ops₂)).startupTimeout = d
    rw [List.foldl_append, List.foldl_cons]
    show (applyOps (BuilderOp.apply (List.foldl BuilderOp.apply c ops₁)
      (BuilderOp.withStartupTimeout d)) ops₂).startupTimeout = d
    rw [applyOps_preserves_startupTimeout _ _ hnone₂]
    rfl
  · intro c' env container st bp
    rfl

/-- A no-timeout builder chain used to exercise C5. -/
def testOps : List BuilderOp :=
  [BuilderOp.withExposedPorts [80], BuilderOp.withCmd ["redis-server"]]

/-- Witness for C5 at a concrete chain: the timeout stays 60000 without a
withStartupTimeout call and becomes 5000 after one. -/
theorem C5_startup_timeout_witness :
    (applyOps (GenericContainer.new "alpine" "3.12") testOps).startupTimeout =
      Duration.mk 60000
    ∧ (applyOps testCfg
        ([] ++ BuilderOp.withStartupTimeout (Duration.mk 5000) :: testOps)).startupTimeout =
      Duration.mk 5000
    ∧ (∀ c' : GenericContainer, ∀ env : StartEnv, ∀ container : Container,
        ∀ st : ContainerState, ∀ bp : BoundPorts,
        c'.waitForContainer env container st bp =
          (c'.getWaitStrategy env container).waitFn c'.startupTimeout container st bp) :=
  C5_startup_timeout "alpine" "3.12" testOps [] testOps testCfg (Duration.mk 5000)
    (by intro op hop; fin_cases hop <;> rfl)
    (by intro op hop; fin_cases hop <;> rfl)

/-- A concrete build environment around testClient with a fixed uuid stream. -/
def testBuildEnv : BuildEnv :=
  { uuid := fun n => "uuid-" ++ toString n, client := testClient }

/-- A concrete build-variant builder with one build argument. -/
def testBuilder : GenericContainerBuilder :=
  (GenericContainerBuilder.new "/ctx").withBuildArg "KEY" "VALUE"

/-- A build environment identical to testBuildEnv except that the
collaborator build call itself fails by surfacing a plain Error whose message
happens to read "Failed to build image". -/
def testBuildEnvBuildFails : BuildEnv :=
  { testBuildEnv with
    client := { testClient with
      buildImageOp := fun _ _ _ =>
        Except.error (Err.jsError "Failed to build image") } }

/-- Counterexample to C6 as stated: the verification failure is not a failure
kind distinguishable from the other error-taxonomy entries. At the same
concrete builder, a run whose build call succeeded but whose image is not
listed (testBuildEnv) and a run whose collaborator build call itself failed
with a plain Error (testBuildEnvBuildFails) surface the very same error
value — a plain Error carrying only the message "Failed to build image" — so
the caller cannot tell the build-verification failure apart from a
collaborator failure. -/
theorem C6_kind_not_distinguishable_counterexample :
    testBuildEnv.client.buildImageOp
        (RepoTag.mk (testBuildEnv.uuid 0) (testBuildEnv.uuid 1))
        testBuilder.context testBuilder.buildArgs = Except.ok ()
    ∧ testBuildEnvBuildFails.client.buildImageOp
        (RepoTag.mk (testBuildEnv.uuid 0) (testBuildEnv.uuid 1))
        testBuilder.context testBuilder.buildArgs =
        Except.error (Err.jsError "Failed to build image")
    ∧ (testBuilder.build testBuildEnv).2 =
        Except.error (Err.jsError "Failed to build image")
    ∧ (testBuilder.build testBuildEnvBuildFails).2 =
        Except.error (Err.jsError "Failed to build image")
    ∧ (testBuilder.build testBuildEnv).2 = (testBuilder.build testBuildEnvBuildFails).2 :=
  ⟨rfl, rfl, rfl, rfl, rfl⟩

/-- Claim C6 (amended): build draws two fresh identifiers as the throwaway
image name and tag, requests the build from the collaborator with the
configured context and build arguments, then verifies the reference is
locally listed; when it is not, build fails by throwing a plain Error with
the message "Failed to build image" — distinguishable from other failures
only by its message text, not as a distinct error kind — and no container is
returned; when it is, the container for the two generated identifiers is
returned. -/
theorem C6_build_verifies (b : GenericContainerBuilder) (env : BuildEnv)
    (tags : List RepoTag)
    (hbuild : env.client.buildImageOp (RepoTag.mk (env.uuid 0) (env.uuid 1))
        b.context b.buildArgs = Except.ok ())
    (hfetch : env.client.fetchRepoTags = Except.ok tags) :
    BuildEvent.buildImage (RepoTag.mk (env.uuid 0) (env.uuid 1)) b.context b.buildArgs
        ∈ (b.build env).1
    ∧ (tags.any (fun rt => rt.equals (RepoTag.mk (env.uuid 0) (env.uuid 1))) = false →
        (b.build env).2 = Except.error (Err.jsError "Failed to build image"))
    ∧ (tags.any (fun rt => rt.equals (RepoTag.mk (env.uuid 0) (env.uuid 1))) = true →
        (b.build env).2 = Except.ok (GenericContainer.new (env.uuid 0) (env.uuid 1))) := by
  have hloc : (GenericContainer.new (env.uuid 0) (env.uuid 1)).hasRepoTagLocally env.client =
      Except.ok (tags.any (fun rt =>
        rt.equals (RepoTag.mk (env.uuid 0) (env.uuid 1)))) := by
    simp [GenericContainer.hasRepoTagLocally, hfetch, GenericContainer.new,
      GenericContainer.repoTag]
  refine ⟨?_, ?_, ?_⟩
  · simp [GenericContainerBuilder.build, hbuild, hloc]
    split <;> simp
  · intro habsent
    simp [GenericContainerBuilder.build, hbuild, hloc, habsent]
  · intro hpresent
    simp [GenericContainerBuilder.build, hbuild, hloc, hpresent]

/-- Witness for the amended C6: under testClient, whose listing holds only
redis:5, the build of a fresh uuid-named image fails verification with the
plain Error and no container is returned. -/
theorem C6_build_verifies_witness :
    BuildEvent.buildImage (RepoTag.mk (testBuildEnv.uuid 0) (testBuildEnv.uuid 1))
        testBuilder.context testBuilder.buildArgs ∈ (testBuilder.build testBuildEnv).1
    ∧ ([RepoTag.mk "redis" "5"].any (fun rt =>
          rt.equals (RepoTag.mk (testBuildEnv.uuid 0) (testBuildEnv.uuid 1))) = false →
        (testBuilder.build testBuildEnv).2 =
          Except.error (Err.jsError "Failed to build image"))
    ∧ ([RepoTag.mk "redis" "5"].any (fun rt =>
          rt.equals (RepoTag.mk (testBuildEnv.uuid 0) (testBuildEnv.uuid 1))) = true →
        (testBuilder.build testBuildEnv).2 =
          Except.ok (GenericContainer.new (testBuildEnv.uuid 0) (testBuildEnv.uuid 1))) :=
  C6_build_verifies testBuilder testBuildEnv [RepoTag.mk "redis" "5"] (by rfl) (by rfl)

/-- A concrete started handle with one bound port pair. -/
def testStarted : StartedGenericContainer :=
  { container := testContainer, host := "localhost",
    boundPorts := BoundPorts.mk [(80, 30080)], name := "test-name",
    dockerClient := testClient }

/-- Claim C7: stop merges the caller options over the defaults (graceful-stop
timeout and remove-volumes false) with caller fields taking precedence,
issues the collaborator stop before its remove, and returns the terminal
stopped marker. -/
theorem C7_stop_merges_and_orders (s : StartedGenericContainer)
    (options : OptionalStopOptions)
    (hok : (s.stop options).2.isOk = true) :
    resolveStopOptions options =
      { timeout := options.timeout.getD DEFAULT_STOP_OPTIONS.timeout,
        removeVolumes := options.removeVolumes.getD DEFAULT_STOP_OPTIONS.removeVolumes }
    ∧ DEFAULT_STOP_OPTIONS.removeVolumes = false
    ∧ (∀ d rv, resolveStopOptions
        { timeout := some d, removeVolumes := some rv } = StopOptions.mk d rv)
    ∧ (s.stop options).1 =
        [StopEvent.stopContainer (resolveStopOptions options).timeout,
         StopEvent.removeContainer (resolveStopOptions options).removeVolumes]
    ∧ (s.stop options).2 = Except.ok StoppedGenericContainer.mk := by
  refine ⟨rfl, rfl, fun d rv => rfl, ?_, ?_⟩ <;>
  · cases hstop : s.container.stopContainerOp (resolveStopOptions options).timeout with
    | error e => simp [StartedGenericContainer.stop, hstop, Except.isOk, Except.toBool] at hok
    | ok u =>
      cases hremove : s.container.removeOp (resolveStopOptions options).removeVolumes with
      | error e =>
        simp [StartedGenericContainer.stop, hstop, hremove, Except.isOk,
          Except.toBool] at hok
      | ok w => simp [StartedGenericContainer.stop, hstop, hremove]

/-- Witness for C7: a concrete stop with a caller-supplied remove-volumes
flag stops then removes and returns the stopped marker. -/
theorem C7_stop_merges_and_orders_witness :
    resolveStopOptions (OptionalStopOptions.mk none (some true)) =
      { timeout := (OptionalStopOptions.mk none (some true)).timeout.getD
          DEFAULT_STOP_OPTIONS.timeout,
        removeVolumes := (OptionalStopOptions.mk none (some true)).removeVolumes.getD
          DEFAULT_STOP_OPTIONS.removeVolumes }
    ∧ DEFAULT_STOP_OPTIONS.removeVolumes = false
    ∧ (∀ d rv, resolveStopOptions
        { timeout := some d, removeVolumes := some rv } = StopOptions.mk d rv)
    ∧ (testStarted.stop (OptionalStopOptions.mk none (some true))).1 =
        [StopEvent.stopContainer
           (resolveStopOptions (OptionalStopOptions.mk none (some true))).timeout,
         StopEvent.removeContainer
           (resolveStopOptions (OptionalStopOptions.mk none (some true))).removeVolumes]
    ∧ (testStarted.stop (OptionalStopOptions.mk none (some true))).2 =
        Except.ok StoppedGenericContainer.mk :=
  C7_stop_merges_and_orders testStarted (OptionalStopOptions.mk none (some true)) (by rfl)

/-- Folding the listing reduce body from any accumulator appends exactly the
parsed tags of the non-dangling images. -/
theorem fetchRepoTags_foldl_aux (images : List ImageInfo) (acc : List RepoTag) :
    images.foldl
      (fun repoTags image =>
        if DockerodeClient.isDanglingImage image then repoTags
        else repoTags ++ (image.RepoTags.getD []).map DockerodeClient.parseRepoTag)
      acc =
    acc ++ (images.filter (fun i => !DockerodeClient.isDanglingImage i)).flatMap
      (fun i => (i.RepoTags.getD []).map DockerodeClient.parseRepoTag) := by
  induction images generalizing acc with
  | nil => simp
  | cons i t ih =>
    rw [List.foldl_cons]
    by_cases hd : DockerodeClient.isDanglingImage i
    · rw [if_pos hd, ih]
      simp [List.filter_cons, hd]
    · rw [if_neg hd, ih]
      simp [List.filter_cons, hd, List.append_assoc]

/-- Claim C8: the known-image listing silently excludes every image with no
tag information and consists exactly of the references parsed from the
name:tag strings of the tagged images. -/
theorem C8_listing_excludes_dangling (dockerode : DockerodeM) (images : List ImageInfo)
    (hlist : dockerode.listImages = Except.ok images) :
    DockerodeClient.fetchRepoTags dockerode =
      Except.ok (DockerodeClient.fetchRepoTagsPure images)
    ∧ DockerodeClient.fetchRepoTagsPure images =
        (images.filter (fun i => !DockerodeClient.isDanglingImage i)).flatMap
          (fun i => (i.RepoTags.getD []).map DockerodeClient.parseRepoTag)
    ∧ (∀ rt ∈ DockerodeClient.fetchRepoTagsPure images, ∃ i ∈ images,
        DockerodeClient.isDanglingImage i = false ∧
        ∃ str ∈ i.RepoTags.getD [], rt = DockerodeClient.parseRepoTag str) := by
  have heq : DockerodeClient.fetchRepoTagsPure images =
      (images.filter (fun i => !DockerodeClient.isDanglingImage i)).flatMap
        (fun i => (i.RepoTags.getD []).map DockerodeClient.parseRepoTag) := by
    unfold DockerodeClient.fetchRepoTagsPure
    rw [fetchRepoTags_foldl_aux]
    simp
  refine ⟨?_, heq, ?_⟩
  · simp [DockerodeClient.fetchRepoTags, hlist]
  · intro rt hrt
    rw [heq] at hrt
    rcases List.mem_flatMap.mp hrt with ⟨i, hi, hrt2⟩
    rcases List.mem_filter.mp hi with ⟨hmem, hnotd⟩
    rcases List.mem_map.mp hrt2 with ⟨str, hstr, hparse⟩
    exact ⟨i, hmem, by simpa using hnotd, str, hstr, hparse.symm⟩

/-- A concrete engine listing: one dangling image and one tagged image. -/
def testDockerode : DockerodeM :=
  { listImages := Except.ok [ImageInfo.mk none, ImageInfo.mk (some ["redis:5"])] }

/-- Witness for C8 at a concrete listing holding a dangling image. -/
theorem C8_listing_excludes_dangling_witness :
    DockerodeClient.fetchRepoTags testDockerode =
      Except.ok (DockerodeClient.fetchRepoTagsPure
        [ImageInfo.mk none, ImageInfo.mk (some ["redis:5"])])
    ∧ DockerodeClient.fetchRepoTagsPure
        [ImageInfo.mk none, ImageInfo.mk (some ["redis:5"])] =
        ([ImageInfo.mk none, ImageInfo.mk (some ["redis:5"])].filter
          (fun i => !DockerodeClient.isDanglingImage i)).flatMap
          (fun i => (i.RepoTags.getD []).map DockerodeClient.parseRepoTag)
    ∧ (∀ rt ∈ DockerodeClient.fetchRepoTagsPure
          [ImageInfo.mk none, ImageInfo.mk (some ["redis:5"])],
        ∃ i ∈ [ImageInfo.mk none, ImageInfo.mk (some ["redis:5"])],
        DockerodeClient.isDanglingImage i = false ∧
        ∃ str ∈ i.RepoTags.getD [], rt = DockerodeClient.parseRepoTag str) :=
  C8_listing_excludes_dangling testDockerode
    [ImageInfo.mk none, ImageInfo.mk (some ["redis:5"])] (by rfl)

/-- find? over pairs with pairwise-distinct keys returns the pair of a
member key. -/
theorem find_key_of_nodup (l : List (Port × Port)) (p hp : Port)
    (hnd : (l.map Prod.fst).Nodup) (hmem : (p, hp) ∈ l) :
    l.find? (fun pr => pr.1 == p) = some (p, hp) := by
  induction l with
  | nil => cases hmem
  | cons a t ih =>
    rcases List.mem_cons.mp hmem with heq | ht
    · subst heq
      exact List.find?_cons_of_pos _ (by simp)
    · have hnd' : (a.1 :: t.map Prod.fst).Nodup := by simpa using hnd
      have hnd1 : a.1 ∉ t.map Prod.fst := (List.nodup_cons.mp hnd').1
      have hnd2 : (t.map Prod.fst).Nodup := (List.nodup_cons.mp hnd').2
      have hne : ¬((a.1 == p) = true) := by
        simp only [beq_iff_eq]
        intro h
        exact hnd1 (h ▸ List.mem_map_of_mem Prod.fst ht)
      rw [@List.find?_cons_of_neg (Port × Port) (fun pr => pr.1 == p) a t hne]
      exact ih hnd2 ht

/-- Claim C9: getMappedPort delegates to the PortMap getBinding; for a port
never requested it fails with a NotBoundError and any successful answer is
the host port bound to the queried internal port; for a requested port it
returns the allocated host port. -/
theorem C9_getMappedPort (s : StartedGenericContainer) (p hp : Port)
    (hnd : (s.boundPorts.pairs.map Prod.fst).Nodup) :
    (p ∉ s.boundPorts.pairs.map Prod.fst →
      s.getMappedPort p = Except.error (Err.notBound p))
    ∧ ((p, hp) ∈ s.boundPorts.pairs → s.getMappedPort p = Except.ok hp)
    ∧ (∀ v, s.getMappedPort p = Except.ok v → (p, v) ∈ s.boundPorts.pairs)
    ∧ s.getMappedPort p = s.boundPorts.getBinding p := by
  refine ⟨?_, ?_, ?_, rfl⟩
  · intro hmem
    unfold StartedGenericContainer.getMappedPort BoundPorts.getBinding
    have hfind : s.boundPorts.pairs.find? (fun pr => pr.1 == p) = none := by
      rw [List.find?_eq_none]
      intro pr hpr
      simp only [beq_iff_eq]
      intro h
      exact hmem (h ▸ List.mem_map_of_mem Prod.fst hpr)
    rw [hfind]
  · intro hmem
    unfold StartedGenericContainer.getMappedPort BoundPorts.getBinding
    rw [find_key_of_nodup s.boundPorts.pairs p hp hnd hmem]
  · intro v hv
    unfold StartedGenericContainer.getMappedPort BoundPorts.getBinding at hv
    cases hfind : s.boundPorts.pairs.find? (fun pr => pr.1 == p) with
    | none =>
      rw [hfind] at hv
      exact Except.noConfusion hv
    | some pr =>
      rw [hfind] at hv
      injection hv with h2
      have hpred := List.find?_some hfind
      have hmem : pr ∈ s.boundPorts.pairs := List.mem_of_find?_eq_some hfind
      have h1 : pr.1 = p := by simpa using hpred
      have hpr : pr = (p, v) := by
        cases pr
        simp_all
      exact hpr ▸ hmem

/-- Witness for C9 at the one-pair port map of testStarted. -/
theorem C9_getMappedPort_witness :
    (80 ∉ testStarted.boundPorts.pairs.map Prod.fst →
      testStarted.getMappedPort 80 = Except.error (Err.notBound 80))
    ∧ ((80, 30080) ∈ testStarted.boundPorts.pairs →
        testStarted.getMappedPort 80 = Except.ok 30080)
    ∧ (∀ v, testStarted.getMappedPort 80 = Except.ok v →
        (80, v) ∈ testStarted.boundPorts.pairs)
    ∧ testStarted.getMappedPort 80 = testStarted.boundPorts.getBinding 80 :=
  C9_getMappedPort testStarted 80 30080 (by decide)

/-- Replacing the value at a key in place leaves the key sequence unchanged. -/
theorem replace_keys {β : Type} (m : List (String × β)) (k : String) (v : β) :
    (m.map (fun kv => if kv.1 == k then (k, v) else kv)).map Prod.fst =
      m.map Prod.fst := by
  induction m with
  | nil => rfl
  | cons a t ih =>
    show ((if (a.1 == k) = true then (k, v) else a) ::
        t.map (fun kv => if (kv.1 == k) = true then (k, v) else kv)).map Prod.fst =
      a.1 :: t.map Prod.fst
    rw [List.map_cons]
    by_cases h : (a.1 == k) = true
    · have hk : a.1 = k := by simpa using h
      rw [if_pos h, ih, hk]
    · rw [if_neg h, ih]

/-- The key sequence of a JS object update: unchanged when the key exists,
extended by the key otherwise. -/
theorem objInsert_keys {β : Type} (m : List (String × β)) (k : String) (v : β) :
    (objInsert m k v).map Prod.fst =
      if m.any (fun kv => kv.1 == k) = true then m.map Prod.fst
      else m.map Prod.fst ++ [k] := by
  unfold objInsert
  split_ifs with h
  · exact replace_keys m k v
  · simp

/-- Whether a key occurs in an object depends only on its key sequence. -/
theorem any_key_eq {β γ : Type} (m₁ : List (String × β)) (m₂ : List (String × γ))
    (k : String) (h : m₁.map Prod.fst = m₂.map Prod.fst) :
    m₁.any (fun kv => kv.1 == k) = m₂.any (fun kv => kv.1 == k) := by
  induction m₁ generalizing m₂ with
  | nil =>
    cases m₂ with
    | nil => rfl
    | cons b t₂ => simp at h
  | cons a t ih =>
    cases m₂ with
    | nil => simp at h
    | cons b t₂ =>
      simp only [List.map_cons, List.cons.injEq] at h
      simp [List.any_cons, h.1, ih t₂ h.2]

/-- Two folds of JS object updates over the same key sequence produce the
same key sequence, whatever values each one stores. -/
theorem fold_keys_eq {β γ : Type} (pairs : List (Port × Port))
    (m₁ : List (String × β)) (m₂ : List (String × γ))
    (f : Port × Port → β) (g : Port × Port → γ)
    (h : m₁.map Prod.fst = m₂.map Prod.fst) :
    (pairs.foldl (fun acc pr => objInsert acc (toString pr.1) (f pr)) m₁).map Prod.fst =
    (pairs.foldl (fun acc pr => objInsert acc (toString pr.1) (g pr)) m₂).map Prod.fst := by
  induction pairs generalizing m₁ m₂ with
  | nil => exact h
  | cons pr t ih =>
    rw [List.foldl_cons, List.foldl_cons]
    apply ih
    rw [objInsert_keys, objInsert_keys, any_key_eq m₁ m₂ (toString pr.1) h, h]

/-- Folding singleton-valued JS object updates keeps every value a
one-element list. -/
theorem fold_bindings_singleton (pairs : List (Port × Port))
    (m : List (String × List String)) (hm : ∀ kv ∈ m, kv.2.length = 1) :
    ∀ kv ∈ pairs.foldl
        (fun acc pr => objInsert acc (toString pr.1) [toString pr.2]) m,
      kv.2.length = 1 := by
  induction pairs generalizing m with
  | nil => exact hm
  | cons pr t ih =>
    rw [List.foldl_cons]
    apply ih
    intro kv hkv
    unfold objInsert at hkv
    split_ifs at hkv with h
    · rcases List.mem_map.mp hkv with ⟨kv', hkv', heq⟩
      by_cases h2 : (kv'.1 == toString pr.1) = true
      · rw [if_pos h2] at heq
        rw [← heq]
        rfl
      · rw [if_neg h2] at heq
        exact heq ▸ hm kv' hkv'
    · rcases List.mem_append.mp hkv with h1 | h2
      · exact hm kv h1
      · rw [List.mem_singleton.mp h2]
        rfl

/-- When the rendered keys are pairwise distinct, folding JS object updates
appends exactly the key sequence of the iteration, in order. -/
theorem fold_keys_of_nodup {β : Type} (pairs : List (Port × Port))
    (f : Port × Port → β) (m : List (String × β))
    (hnd : (m.map Prod.fst ++ pairs.map (fun pr => toString pr.1)).Nodup) :
    (pairs.foldl (fun acc pr => objInsert acc (toString pr.1) (f pr)) m).map Prod.fst =
      m.map Prod.fst ++ pairs.map (fun pr => toString pr.1) := by
  induction pairs generalizing m with
  | nil => simp
  | cons pr t ih =>
    rw [List.foldl_cons]
    have hdisj : (m.map Prod.fst).Disjoint
        ((pr :: t).map (fun x => toString x.1)) :=
      List.disjoint_of_nodup_append hnd
    have hnotin : toString pr.1 ∉ m.map Prod.fst := by
      intro hmem
      exact hdisj hmem (by simp)
    have hany : m.any (fun kv => kv.1 == toString pr.1) = false := by
      rw [List.any_eq_false]
      intro kv hkv
      simp only [beq_iff_eq]
      intro h
      exact hnotin (h ▸ List.mem_map_of_mem Prod.fst hkv)
    have hkeys : (objInsert m (toString pr.1) (f pr)).map Prod.fst =
        m.map Prod.fst ++ [toString pr.1] := by
      rw [objInsert_keys, hany]
      simp
    have hnd' : ((objInsert m (toString pr.1) (f pr)).map Prod.fst ++
        t.map (fun x => toString x.1)).Nodup := by
      rw [hkeys, List.append_assoc]
      simpa using hnd
    rw [ih _ hnd', hkeys]
    simp

/-- Claim C10: in the creation request sent to the engine, the exposed-port
keys and the host-port-binding keys coincide — both derived from the same
PortMap iteration in its order — and every internal port is bound to exactly
one host-port entry. -/
theorem C10_create_request_ports (options : CreateOptions)
    (hnd : (options.boundPorts.pairs.map (fun pr => toString pr.1)).Nodup) :
    (DockerodeClient.createRequest options).ExposedPorts.map Prod.fst =
      (DockerodeClient.createRequest options).PortBindings.map Prod.fst
    ∧ (DockerodeClient.createRequest options).ExposedPorts.map Prod.fst =
        options.boundPorts.pairs.map (fun pr => toString pr.1)
    ∧ (∀ kv ∈ (DockerodeClient.createRequest options).PortBindings, kv.2.length = 1)
    ∧ (DockerodeClient.createRequest options).ExposedPorts =
        DockerodeClient.getExposedPorts options.boundPorts
    ∧ (DockerodeClient.createRequest options).PortBindings =
        DockerodeClient.getPortBindings options.boundPorts := by
  refine ⟨?_, ?_, ?_, rfl, rfl⟩
  · exact fold_keys_eq options.boundPorts.pairs [] [] (fun _ => ())
      (fun pr => [toString pr.2]) rfl
  · exact fold_keys_of_nodup options.boundPorts.pairs (fun _ => ()) []
      (by simpa using hnd)
  · exact fold_bindings_singleton options.boundPorts.pairs [] (by intro kv h; cases h)

/-- A concrete creation request used to exercise C10. -/
def testCreateOptions : CreateOptions :=
  { repoTag := RepoTag.mk "redis" "5", env := [], cmd := [], bindMounts := [],
    tmpFs := [], boundPorts := BoundPorts.mk [(80, 30080), (443, 30443)],
    name := none }

/-- Witness for C10 at a two-port map. -/
theorem C10_create_request_ports_witness :
    (DockerodeClient.createRequest testCreateOptions).ExposedPorts.map Prod.fst =
      (DockerodeClient.createRequest testCreateOptions).PortBindings.map Prod.fst
    ∧ (DockerodeClient.createRequest testCreateOptions).ExposedPorts.map Prod.fst =
        testCreateOptions.boundPorts.pairs.map (fun pr => toString pr.1)
    ∧ (∀ kv ∈ (DockerodeClient.createRequest testCreateOptions).PortBindings,
        kv.2.length = 1)
    ∧ (DockerodeClient.createRequest testCreateOptions).ExposedPorts =
        DockerodeClient.getExposedPorts testCreateOptions.boundPorts
    ∧ (DockerodeClient.createRequest testCreateOptions).PortBindings =
        DockerodeClient.getPortBindings testCreateOptions.boundPorts :=
  C10_create_request_ports testCreateOptions (by decide)

end Testcontainers
